import Mathlib

/-!
# Equilotl: the websocket request/reply handler (`websocket.go`)

A shallow embedding of `launch` and of the closures `write`, `reply` and
`replyError` it defines.  One run of the handler is a pure function from what the
outside world answers (the decoded frame, the discovery result, the outcome of each
collaborator call) to the ordered trace of calls the handler makes, the writes of
reply envelopes among them.

Not part of the trace: the `fmt.Println` diagnostics, and the outcome of
`conn.WriteMessage` (a failed write is only printed, line 61).
-/

namespace Equilotl

/-! ## Data model -/

/-- A Go `error`: `none` is `nil`, `some m` is an error whose `Error()` is `m`. -/
abbrev GoError := Option String

/-- Lines 18-23: the record `LIST_INSTALLS` reports for one installation. -/
structure DiscordData where
  Branch : String
  Path : String
  IsPatched : Bool
  IsOpenAsar : Bool
deriving DecidableEq, Repr

/-- Line 26. -/
def OpError : String := "ERROR"
/-- Line 27. -/
def OpOk : String := "OK"
/-- Line 28. -/
def OpListInstalls : String := "LIST_INSTALLS"
/-- Line 29. -/
def OpPatch : String := "PATCH"
/-- Line 30. -/
def OpUnpatch : String := "UNPATCH"
/-- Line 31. -/
def OpRepair : String := "REPAIR"
/-- Line 32. -/
def OpInstallOpenAsar : String := "INSTALL_OPENASAR"
/-- Line 33. -/
def OpUninstallOpenAsar : String := "UNINSTALL_OPENASAR"

/-- The `json.RawMessage` held by `Payload.Data` after a successful decode of the frame
(line 39), by the kind of its top-level JSON value.  `absent` is the nil message of a
frame with no `data` key; a `data` key holding `null` stores the four bytes `null`
(`RawMessage` is an `Unmarshaler`, so the decoder hands it the literal).  What is
inside an array or object plays no part in the handler and is kept as raw text. -/
inductive RawMessage where
  | absent
  | null
  | bool (b : Bool)
  | number (literal : String)
  | string (s : String)
  | array (raw : String)
  | object (raw : String)
deriving DecidableEq, Repr

/-- Lines 36-40: a request envelope as decoded from a frame. -/
structure Payload where
  Nonce : String
  Op : String
  Data : RawMessage
deriving DecidableEq, Repr

/-- Modelled from the spec: the type `DiscordInstall` is declared outside
`websocket.go`.  The handler reads its fields `path`, `branch` and `isPatched`
(lines 116-118, 136); the spec's installation handle is "identified by a stable path
string; carries branch name, patch state, and loader-presence flag".  The loader flag
is the method `IsOpenAsar()`, a collaborator call, see `World.IsOpenAsar`. -/
structure DiscordInstall where
  path : String
  branch : String
  isPatched : Bool
deriving DecidableEq, Repr

/-- What the collaborators answer during one iteration of the session loop.  None of
them is defined in `websocket.go`; each is called at most once per handle and
iteration, so an answer per call site is all the handler can observe. -/
structure World where
  /-- Return value of `FindDiscords()` (lines 111, 132), each element already asserted to
  `*DiscordInstall` (lines 114, 135). -/
  FindDiscords : List DiscordInstall
  /-- Return value of `in.IsOpenAsar()` (line 119). -/
  IsOpenAsar : DiscordInstall → Bool
  /-- Return value of `di.patch()` (lines 148, 154). -/
  patch : DiscordInstall → GoError
  /-- Return value of `di.unpatch()` (line 150). -/
  unpatch : DiscordInstall → GoError
  /-- Return value of `di.InstallOpenAsar()` (line 157). -/
  InstallOpenAsar : DiscordInstall → GoError
  /-- Return value of `di.UninstallOpenAsar()` (line 159). -/
  UninstallOpenAsar : DiscordInstall → GoError
  /-- Return value of `installLatestBuilds()` (line 180). -/
  installLatestBuilds : GoError

/-- The `data any` handed to `reply` (line 66), as `json.Marshal` renders it: `nil`
gives `null`, a `[]DiscordData` gives an array of records.  `json.Marshal` has no
failing case on these two shapes, so the early return of line 70 is never taken. -/
inductive ReplyData where
  | null
  | installs (data : List DiscordData)
deriving DecidableEq, Repr

/-- The envelope handed to `write`: a `Payload` (line 73, no `message` key) or a
`PayloadWithMessage` (line 81, `Data` left nil, which marshals as `null`). -/
structure Envelope where
  nonce : String
  op : String
  data : ReplyData
  message : Option String
deriving DecidableEq, Repr

/-- One observable call made by the handler, in program order. -/
inductive Event where
  | FindDiscords
  | IsOpenAsar (d : DiscordInstall)
  | patch (di : DiscordInstall)
  | unpatch (di : DiscordInstall)
  | InstallLatestBuilds
  | InstallOpenAsar (di : DiscordInstall)
  | UninstallOpenAsar (di : DiscordInstall)
  | WriteMessage (e : Envelope)
  | Close
deriving DecidableEq, Repr

/-! ## The closures of `launch` -/

/-- Lines 54-64: `write` marshals the envelope and hands it to `conn.WriteMessage`. -/
def write (payload : Envelope) : List Event :=
  [Event.WriteMessage payload]

/-- Lines 66-78. -/
def reply (nonce : String) (data : ReplyData) : List Event :=
  write ⟨nonce, OpOk, data, none⟩

/-- Lines 80-88. -/
def replyError (nonce : String) (message : String) : List Event :=
  write ⟨nonce, OpError, ReplyData.null, some message⟩

/-- Line 179. -/
def InstallLatestBuilds (w : World) : GoError :=
  w.installLatestBuilds

/-! ## The dispatcher -/

/-- Lines 125-126: `var path string; err := json.Unmarshal(payload.Data, &path)`, as
`encoding/json` documents it: a JSON string is stored; "unmarshaling a JSON null into
any other Go type [than interface, map, pointer, slice] has no effect on the value and
produces no error", so `path` keeps its zero value; a number, boolean, array or object
is an `UnmarshalTypeError`; empty input is a syntax error ("unexpected end of JSON
input").  `none` stands for `err != nil`. -/
def unmarshalString : RawMessage → Option String
  | RawMessage.absent => none
  | RawMessage.null => some ""
  | RawMessage.bool _ => none
  | RawMessage.number _ => none
  | RawMessage.string s => some s
  | RawMessage.array _ => none
  | RawMessage.object _ => none

/-- Lines 134-140, the range loop over `discords`.  The argument `di` is the variable
declared on line 133.  Line 135, `di := d.(*DiscordInstall)`, declares a second variable
in the scope of the loop body (`diBody` here); the test of line 136 and the assignment
`di = di` of line 137 both refer to that one.  The result is the value of the variable
of line 133 when the loop is left, by `break` (line 138) or at the end of the range. -/
def resolveLoop (path : String) (di : Option DiscordInstall) :
    List DiscordInstall → Option DiscordInstall
  | [] => di
  | d :: discords =>
    let diBody := d
    if diBody.path = path then
      let diBody := diBody
      di
    else
      resolveLoop path di discords

/-- Lines 146-160, the inner `switch payload.Op`.  The argument `err` is the variable
declared on line 126 (`nil` here, since line 127 has been passed); the result is the
calls made and the value of that variable after the switch.  In the `OpRepair` case
line 152, `err := InstallLatestBuilds()`, declares a new variable in the scope of the
case clause (`errCase` here), and line 154 assigns the result of `di.patch()` to it. -/
def invoke (w : World) (op : String) (di : DiscordInstall) (err : GoError) :
    List Event × GoError :=
  if op = OpPatch then
    ([Event.patch di], w.patch di)
  else if op = OpUnpatch then
    ([Event.unpatch di], w.unpatch di)
  else if op = OpRepair then
    let errCase := InstallLatestBuilds w
    if errCase = none then
      let errCase := w.patch di
      ([Event.InstallLatestBuilds, Event.patch di], err)
    else
      ([Event.InstallLatestBuilds], err)
  else if op = OpInstallOpenAsar then
    ([Event.InstallOpenAsar di], w.InstallOpenAsar di)
  else if op = OpUninstallOpenAsar then
    ([Event.UninstallOpenAsar di], w.UninstallOpenAsar di)
  else
    ([], err)

/-- Lines 109-169: the `switch payload.Op` of the loop body. -/
def dispatch (w : World) (payload : Payload) : List Event :=
  if payload.Op = OpListInstalls then
    let discords := w.FindDiscords
    let data := discords.map fun d =>
      (⟨d.branch, d.path, d.isPatched, w.IsOpenAsar d⟩ : DiscordData)
    [Event.FindDiscords] ++ discords.map Event.IsOpenAsar
      ++ reply payload.Nonce (ReplyData.installs data)
  else if payload.Op = OpPatch ∨ payload.Op = OpUnpatch ∨ payload.Op = OpRepair
      ∨ payload.Op = OpInstallOpenAsar ∨ payload.Op = OpUninstallOpenAsar then
    match unmarshalString payload.Data with
    | none => replyError payload.Nonce "Expected data to be string"
    | some path =>
      let discords := w.FindDiscords
      let di := resolveLoop path none discords
      [Event.FindDiscords] ++
        match di with
        | none => replyError payload.Nonce ("No such Discord install: " ++ path)
        | some di =>
          let r := invoke w payload.Op di none
          r.1 ++
            match r.2 with
            | none => reply payload.Nonce ReplyData.null
            | some e => replyError payload.Nonce e
  else
    replyError payload.Nonce ("Unknown OP '" ++ payload.Op ++ "'")

/-- Lines 98-169: the loop body after a successful read of the frame `msg`.  The
parameter `unmarshal` is `json.Unmarshal(msg, &payload)` of line 99, `none` standing
for `err != nil`. -/
def handleMessage {Msg : Type} (unmarshal : Msg → Option Payload) (w : World)
    (msg : Msg) : List Event :=
  match unmarshal msg with
  | none => replyError "" "Invalid data"
  | some payload =>
    if payload.Nonce = "" then
      replyError "" "Missing Nonce"
    else
      dispatch w payload

/-! ## The session loop -/

/-- The two states of a session. -/
inductive SessionState where
  | Open
  | Closed
deriving DecidableEq, Repr

/-- What `conn.ReadMessage()` returns (line 92). -/
inductive ReadResult (Msg : Type) where
  | error (err : String)
  | message (msg : Msg)

/-- How one pass through the body of the `for` of line 91 ends: at the closing brace or
a `continue` (the loop goes on to the next read), or at a `break` that leaves the loop. -/
inductive Control where
  | next
  | leave
deriving DecidableEq, Repr

/-- Lines 92-169: one pass through the loop body.  The only `break` whose innermost
enclosing statement is the `for` is that of line 95; those of lines 129 and 143 stand
inside the `switch` of line 109 and end that statement, after which the body is at its
closing brace. -/
def loopBody {Msg : Type} (unmarshal : Msg → Option Payload) (w : World) :
    ReadResult Msg → Control × List Event
  | ReadResult.error _ => (Control.leave, [])
  | ReadResult.message msg => (Control.next, handleMessage unmarshal w msg)

/-- Lines 90-170 of `launch`, after a successful upgrade: the loop runs over the results
of the successive reads, each with the answers the collaborators give during that
iteration.  When the loop is left the deferred `conn.Close()` runs; when the reads so
far all succeeded the session is still open, waiting in `ReadMessage`. -/
def launch {Msg : Type} (unmarshal : Msg → Option Payload) :
    List (ReadResult Msg × World) → SessionState × List Event
  | [] => (SessionState.Open, [])
  | (r, w) :: rest =>
    match loopBody unmarshal w r with
    | (Control.leave, evs) => (SessionState.Closed, evs ++ [Event.Close])
    | (Control.next, evs) =>
      let s := launch unmarshal rest
      (s.1, evs ++ s.2)

/-! ## Observations on a trace -/

/-- The envelopes written during a trace, in order. -/
def writes : List Event → List Envelope
  | [] => []
  | Event.WriteMessage e :: evs => e :: writes evs
  | _ :: evs => writes evs

/-- The calls that change an installation: `patch`, `unpatch`, `InstallLatestBuilds`,
`InstallOpenAsar`, `UninstallOpenAsar`. -/
def Event.isMutating : Event → Bool
  | Event.patch _ => true
  | Event.unpatch _ => true
  | Event.InstallLatestBuilds => true
  | Event.InstallOpenAsar _ => true
  | Event.UninstallOpenAsar _ => true
  | _ => false

/-- A read counts as failed when `ReadMessage` returned an error. -/
def ReadResult.failed {Msg : Type} : ReadResult Msg → Bool
  | ReadResult.error _ => true
  | ReadResult.message _ => false

/-- The path-addressed operations (line 124). -/
def isPathOp (op : String) : Prop :=
  op = OpPatch ∨ op = OpUnpatch ∨ op = OpRepair ∨ op = OpInstallOpenAsar
    ∨ op = OpUninstallOpenAsar

instance (op : String) : Decidable (isPathOp op) := by
  unfold isPathOp; infer_instance

/-! ## Sample collaborators, used to evaluate the handler on concrete requests -/

/-- A frame is given by what it decodes to; `none` is an undecodable frame. -/
def sampleUnmarshal : Option Payload → Option Payload := id

/-- An installation at `/opt/discord`. -/
def sampleInstall : DiscordInstall := ⟨"/opt/discord", "stable", false⟩

/-- A second installation, at `/opt/discord-canary`, already patched. -/
def sampleCanary : DiscordInstall := ⟨"/opt/discord-canary", "canary", true⟩

/-- Discovery finds both installations and every collaborator succeeds. -/
def sampleWorld : World :=
  ⟨[sampleInstall, sampleCanary], fun d => d.isPatched, fun _ => none, fun _ => none,
    fun _ => none, fun _ => none, none⟩

/-- As `sampleWorld`, but every mutating collaborator, the rebuild step included, fails. -/
def failingWorld : World :=
  ⟨[sampleInstall, sampleCanary], fun d => d.isPatched, fun _ => some "patch failed",
    fun _ => some "unpatch failed", fun _ => some "install failed",
    fun _ => some "uninstall failed", some "download failed"⟩

/-! ## Lemmas on traces -/

theorem writes_append (xs ys : List Event) : writes (xs ++ ys) = writes xs ++ writes ys := by
  induction xs with
  | nil => rfl
  | cons x xs ih => cases x <;> simp [writes, ih]

theorem writes_IsOpenAsar (ds : List DiscordInstall) :
    writes (ds.map Event.IsOpenAsar) = [] := by
  induction ds with
  | nil => rfl
  | cons d ds ih => simp [writes, ih]

theorem writes_reply (nonce : String) (data : ReplyData) :
    writes (reply nonce data) = [⟨nonce, OpOk, data, none⟩] := rfl

theorem writes_replyError (nonce message : String) :
    writes (replyError nonce message) = [⟨nonce, OpError, ReplyData.null, some message⟩] := rfl

/-- The variable of line 133 is never assigned by the loop of lines 134-140. -/
theorem resolveLoop_eq (path : String) (di : Option DiscordInstall)
    (discords : List DiscordInstall) : resolveLoop path di discords = di := by
  induction discords with
  | nil => rfl
  | cons d ds ih =>
    unfold resolveLoop
    by_cases h : d.path = path
    · simp [h]
    · simp [h, ih]

/-- With a non-empty nonce every switch arm writes one envelope, carrying the nonce. -/
theorem writes_dispatch (w : World) (p : Payload) :
    ∃ r, writes (dispatch w p) = [r] ∧ r.nonce = p.Nonce := by
  unfold dispatch
  split
  · simp [writes_append, writes_IsOpenAsar, writes_reply, writes]
  · split
    · cases hu : unmarshalString p.Data with
      | none => simp [writes_replyError]
      | some path =>
        simp only [resolveLoop_eq]
        simp [writes_append, writes_replyError, writes]
    · simp [writes_replyError]

/-! ## Claims -/

/-- C1: for every frame that decodes to an envelope with a non-empty nonce, whatever its
op, its data, the discovery result and the collaborator outcomes, the handler writes
exactly one reply envelope, and that envelope carries the nonce of the request. -/
theorem C1_one_reply_same_nonce {Msg : Type} (unmarshal : Msg → Option Payload)
    (w : World) (msg : Msg) (p : Payload) (hdec : unmarshal msg = some p)
    (hnonce : p.Nonce ≠ "") :
    ∃ r, writes (handleMessage unmarshal w msg) = [r] ∧ r.nonce = p.Nonce := by
  unfold handleMessage
  rw [hdec]
  simp only [hnonce, if_false]
  exact writes_dispatch w p

/-- C1 at a `LIST_INSTALLS` request with nonce "1". -/
theorem C1_one_reply_same_nonce_witness :
    ∃ r, writes (handleMessage sampleUnmarshal sampleWorld
        (some ⟨"1", "LIST_INSTALLS", RawMessage.absent⟩)) = [r] ∧ r.nonce = "1" :=
  C1_one_reply_same_nonce sampleUnmarshal sampleWorld
    (some ⟨"1", "LIST_INSTALLS", RawMessage.absent⟩) ⟨"1", "LIST_INSTALLS", RawMessage.absent⟩
    rfl (by decide)

/-- C2: a frame that does not decode is answered by the single envelope op ERROR,
nonce "", message "Invalid data"; a frame that decodes with an empty nonce by the
single envelope op ERROR, nonce "", message "Missing Nonce", whatever its op and
data.  The trace holds nothing but that write: no discovery and no collaborator call. -/
theorem C2_uncorrelated_error {Msg : Type} (unmarshal : Msg → Option Payload)
    (w : World) (msg : Msg) :
    (unmarshal msg = none →
      handleMessage unmarshal w msg
        = [Event.WriteMessage ⟨"", "ERROR", ReplyData.null, some "Invalid data"⟩]) ∧
    (∀ p, unmarshal msg = some p → p.Nonce = "" →
      handleMessage unmarshal w msg
        = [Event.WriteMessage ⟨"", "ERROR", ReplyData.null, some "Missing Nonce"⟩]) := by
  constructor
  · intro h
    simp [handleMessage, h, replyError, write, OpError]
  · intro p h hn
    simp [handleMessage, h, hn, replyError, write, OpError]

/-- C2 at an undecodable frame, and at a `PATCH` and an unknown op without nonce. -/
theorem C2_uncorrelated_error_witness :
    handleMessage sampleUnmarshal sampleWorld none
        = [Event.WriteMessage ⟨"", "ERROR", ReplyData.null, some "Invalid data"⟩] ∧
    handleMessage sampleUnmarshal sampleWorld
        (some ⟨"", "PATCH", RawMessage.string "/opt/discord"⟩)
        = [Event.WriteMessage ⟨"", "ERROR", ReplyData.null, some "Missing Nonce"⟩] ∧
    handleMessage sampleUnmarshal sampleWorld (some ⟨"", "FOO", RawMessage.absent⟩)
        = [Event.WriteMessage ⟨"", "ERROR", ReplyData.null, some "Missing Nonce"⟩] :=
  ⟨(C2_uncorrelated_error sampleUnmarshal sampleWorld none).1 rfl,
   (C2_uncorrelated_error sampleUnmarshal sampleWorld _).2 _ rfl rfl,
   (C2_uncorrelated_error sampleUnmarshal sampleWorld _).2 _ rfl rfl⟩

/-- C3 (the code at the failing input): `PATCH` with nonce "1" and payload
"/opt/discord", while discovery returns a handle with exactly that path and `patch`
would succeed.  The handler calls discovery, never calls `patch`, and replies op ERROR
with message "No such Discord install: /opt/discord". -/
theorem C3_matching_handle_not_resolved :
    sampleInstall ∈ sampleWorld.FindDiscords ∧ sampleInstall.path = "/opt/discord" ∧
    sampleWorld.patch sampleInstall = none ∧
    handleMessage sampleUnmarshal sampleWorld
        (some ⟨"1", "PATCH", RawMessage.string "/opt/discord"⟩)
      = [Event.FindDiscords,
         Event.WriteMessage ⟨"1", "ERROR", ReplyData.null,
           some "No such Discord install: /opt/discord"⟩] := by
  decide

/-- C4 (the code at the failing input): `REPAIR` with nonce "1" and payload
"/opt/discord", a discovered path, while the rebuild step would fail with "download
failed".  The handler never calls `InstallLatestBuilds` and replies "No such Discord
install: /opt/discord", not the rebuild failure.  Past the resolution, the `REPAIR`
case leaves the error variable tested on line 162 nil although the rebuild failed. -/
theorem C4_rebuild_failure_not_reported :
    sampleInstall ∈ failingWorld.FindDiscords ∧
    InstallLatestBuilds failingWorld = some "download failed" ∧
    handleMessage sampleUnmarshal failingWorld
        (some ⟨"1", "REPAIR", RawMessage.string "/opt/discord"⟩)
      = [Event.FindDiscords,
         Event.WriteMessage ⟨"1", "ERROR", ReplyData.null,
           some "No such Discord install: /opt/discord"⟩] ∧
    invoke failingWorld "REPAIR" sampleInstall none = ([Event.InstallLatestBuilds], none) := by
  decide

/-- C5 (the code at the failing input): `PATCH` with nonce "1" and payload `null`.
Decoding `null` into the string is no error, so the handler goes on with the empty
path: it runs discovery and replies "No such Discord install: ".  The other payloads
that are no JSON string (absent, boolean, number, array, object) are answered for
every path-addressed op by the single envelope "Expected data to be string". -/
theorem C5_null_payload_passes :
    handleMessage sampleUnmarshal sampleWorld (some ⟨"1", "PATCH", RawMessage.null⟩)
      = [Event.FindDiscords,
         Event.WriteMessage ⟨"1", "ERROR", ReplyData.null,
           some "No such Discord install: "⟩] ∧
    ∀ (Msg : Type) (unmarshal : Msg → Option Payload) (w : World) (msg : Msg)
      (p : Payload), unmarshal msg = some p → p.Nonce ≠ "" → isPathOp p.Op →
      (∀ s, p.Data ≠ RawMessage.string s) → p.Data ≠ RawMessage.null →
      handleMessage unmarshal w msg
        = [Event.WriteMessage ⟨p.Nonce, "ERROR", ReplyData.null,
            some "Expected data to be string"⟩] := by
  refine ⟨by decide, ?_⟩
  intro Msg unmarshal w msg p hdec hn hop hs hnull
  have hl : p.Op ≠ OpListInstalls := by
    rcases hop with h | h | h | h | h <;> rw [h] <;> decide
  have hu : unmarshalString p.Data = none := by
    cases hd : p.Data with
    | null => exact absurd hd hnull
    | string s => exact absurd hd (hs s)
    | _ => rfl
  have hop2 : p.Op = OpPatch ∨ p.Op = OpUnpatch ∨ p.Op = OpRepair
      ∨ p.Op = OpInstallOpenAsar ∨ p.Op = OpUninstallOpenAsar := hop
  simp [handleMessage, hdec, hn, dispatch, hl, hop2, hu, replyError, write, OpError]

/-- The path-addressed arm of the switch, for a payload that decodes to the string
`path`: discovery, then the reply "No such Discord install: " followed by `path`. -/
theorem dispatch_pathOp (w : World) (p : Payload) (path : String)
    (hop : isPathOp p.Op) (hu : unmarshalString p.Data = some path) :
    dispatch w p
      = [Event.FindDiscords,
         Event.WriteMessage ⟨p.Nonce, "ERROR", ReplyData.null,
           some ("No such Discord install: " ++ path)⟩] := by
  have hl : p.Op ≠ OpListInstalls := by
    rcases hop with h | h | h | h | h <;> rw [h] <;> decide
  have hop2 : p.Op = OpPatch ∨ p.Op = OpUnpatch ∨ p.Op = OpRepair
      ∨ p.Op = OpInstallOpenAsar ∨ p.Op = OpUninstallOpenAsar := hop
  simp [dispatch, hl, hop2, hu, resolveLoop_eq, replyError, write, OpError]

/-- No arm of the switch calls a collaborator that changes an installation. -/
theorem dispatch_not_mutating (w : World) (p : Payload) :
    ∀ e ∈ dispatch w p, e.isMutating = false := by
  unfold dispatch
  split
  · intro e he
    simp only [List.mem_append, List.mem_singleton, List.mem_map, reply, write] at he
    rcases he with (rfl | ⟨d, _, rfl⟩) | rfl <;> rfl
  · split
    · cases hu : unmarshalString p.Data with
      | none =>
        intro e he
        simp only [replyError, write, List.mem_singleton] at he
        subst he; rfl
      | some path =>
        intro e he
        simp only [resolveLoop_eq, replyError, write, List.mem_append,
          List.mem_singleton] at he
        rcases he with rfl | rfl <;> rfl
    · intro e he
      simp only [replyError, write, List.mem_singleton] at he
      subst he; rfl

/-- C6: for a path-addressed op with non-empty nonce `n` and a string payload `path`
that is the path of no handle discovery returns (an empty discovery result included),
the handler runs discovery and then writes the single envelope op ERROR, nonce `n`,
message "No such Discord install: " followed by `path`; no mutating collaborator is
called.  (The proof does not need the hypothesis that no handle matches.) -/
theorem C6_no_such_install {Msg : Type} (unmarshal : Msg → Option Payload)
    (w : World) (msg : Msg) (p : Payload) (path : String)
    (hdec : unmarshal msg = some p) (hnonce : p.Nonce ≠ "") (hop : isPathOp p.Op)
    (hdata : p.Data = RawMessage.string path)
    (hmiss : ∀ d ∈ w.FindDiscords, d.path ≠ path) :
    handleMessage unmarshal w msg
      = [Event.FindDiscords,
         Event.WriteMessage ⟨p.Nonce, "ERROR", ReplyData.null,
           some ("No such Discord install: " ++ path)⟩] ∧
    ∀ e ∈ handleMessage unmarshal w msg, e.isMutating = false := by
  have hu : unmarshalString p.Data = some path := by rw [hdata]; rfl
  have hh : handleMessage unmarshal w msg = dispatch w p := by
    simp [handleMessage, hdec, hnonce]
  rw [hh]
  exact ⟨dispatch_pathOp w p path hop hu, dispatch_not_mutating w p⟩

/-- C6 at nonce "2", op `PATCH`, payload "/nonexistent": the message is
"No such Discord install: /nonexistent". -/
theorem C6_no_such_install_witness :
    handleMessage sampleUnmarshal sampleWorld
        (some ⟨"2", "PATCH", RawMessage.string "/nonexistent"⟩)
      = [Event.FindDiscords,
         Event.WriteMessage ⟨"2", "ERROR", ReplyData.null,
           some "No such Discord install: /nonexistent"⟩] :=
  (C6_no_such_install sampleUnmarshal sampleWorld
    (some ⟨"2", "PATCH", RawMessage.string "/nonexistent"⟩)
    ⟨"2", "PATCH", RawMessage.string "/nonexistent"⟩ "/nonexistent"
    rfl (by decide) (by decide) rfl (by decide)).1.trans (by decide)

/-- C7: for a request with non-empty nonce `n` whose op is none of the six recognised
names, the trace is the single envelope op ERROR, nonce `n`, message "Unknown OP '"
followed by the op and a closing quote: no discovery, no collaborator call. -/
theorem C7_unknown_op {Msg : Type} (unmarshal : Msg → Option Payload)
    (w : World) (msg : Msg) (p : Payload)
    (hdec : unmarshal msg = some p) (hnonce : p.Nonce ≠ "")
    (hop : p.Op ∉ ["LIST_INSTALLS", "PATCH", "UNPATCH", "REPAIR", "INSTALL_OPENASAR",
      "UNINSTALL_OPENASAR"]) :
    handleMessage unmarshal w msg
      = [Event.WriteMessage ⟨p.Nonce, "ERROR", ReplyData.null,
          some ("Unknown OP '" ++ p.Op ++ "'")⟩] := by
  simp only [List.mem_cons, List.mem_singleton, List.not_mem_nil, or_false, not_or] at hop
  obtain ⟨h1, h2, h3, h4, h5, h6⟩ := hop
  simp [handleMessage, hdec, hnonce, dispatch, OpListInstalls, OpPatch, OpUnpatch, OpRepair,
    OpInstallOpenAsar, OpUninstallOpenAsar, h1, h2, h3, h4, h5, h6, replyError, write, OpError]

/-- C7 at the ops "FOO", "", "OK", "ERROR" and "patch". -/
theorem C7_unknown_op_witness :
    handleMessage sampleUnmarshal sampleWorld (some ⟨"7", "FOO", RawMessage.absent⟩)
      = [Event.WriteMessage ⟨"7", "ERROR", ReplyData.null, some "Unknown OP 'FOO'"⟩] ∧
    handleMessage sampleUnmarshal sampleWorld (some ⟨"7", "", RawMessage.absent⟩)
      = [Event.WriteMessage ⟨"7", "ERROR", ReplyData.null, some "Unknown OP ''"⟩] ∧
    handleMessage sampleUnmarshal sampleWorld (some ⟨"7", "OK", RawMessage.absent⟩)
      = [Event.WriteMessage ⟨"7", "ERROR", ReplyData.null, some "Unknown OP 'OK'"⟩] ∧
    handleMessage sampleUnmarshal sampleWorld (some ⟨"7", "ERROR", RawMessage.absent⟩)
      = [Event.WriteMessage ⟨"7", "ERROR", ReplyData.null, some "Unknown OP 'ERROR'"⟩] ∧
    handleMessage sampleUnmarshal sampleWorld
        (some ⟨"7", "patch", RawMessage.string "/opt/discord"⟩)
      = [Event.WriteMessage ⟨"7", "ERROR", ReplyData.null, some "Unknown OP 'patch'"⟩] :=
  ⟨(C7_unknown_op sampleUnmarshal sampleWorld _ ⟨"7", "FOO", RawMessage.absent⟩
      rfl (by decide) (by decide)).trans (by decide),
   (C7_unknown_op sampleUnmarshal sampleWorld _ ⟨"7", "", RawMessage.absent⟩
      rfl (by decide) (by decide)).trans (by decide),
   (C7_unknown_op sampleUnmarshal sampleWorld _ ⟨"7", "OK", RawMessage.absent⟩
      rfl (by decide) (by decide)).trans (by decide),
   (C7_unknown_op sampleUnmarshal sampleWorld _ ⟨"7", "ERROR", RawMessage.absent⟩
      rfl (by decide) (by decide)).trans (by decide),
   (C7_unknown_op sampleUnmarshal sampleWorld _
      ⟨"7", "patch", RawMessage.string "/opt/discord"⟩
      rfl (by decide) (by decide)).trans (by decide)⟩

/-- C8: for a `LIST_INSTALLS` request with non-empty nonce `n`, whatever discovery
returns, the handler calls discovery, asks each handle for its loader flag, and writes
the single envelope op OK, nonce `n`, whose data is an array with one record per
handle, in discovery order, record `i` holding the branch, path, patched flag and
loader flag of handle `i`.  No mutating collaborator is called, and a request that
differs only in its data gives the same trace. -/
theorem C8_list_installs {Msg : Type} (unmarshal : Msg → Option Payload)
    (w : World) (msg : Msg) (p : Payload)
    (hdec : unmarshal msg = some p) (hnonce : p.Nonce ≠ "")
    (hop : p.Op = "LIST_INSTALLS") :
    ∃ recs : List DiscordData,
      handleMessage unmarshal w msg
        = Event.FindDiscords :: (w.FindDiscords.map Event.IsOpenAsar
            ++ [Event.WriteMessage ⟨p.Nonce, "OK", ReplyData.installs recs, none⟩]) ∧
      recs.length = w.FindDiscords.length ∧
      (∀ (i : Nat) (h : i < w.FindDiscords.length),
        recs[i]? = some ⟨(w.FindDiscords.get ⟨i, h⟩).branch,
          (w.FindDiscords.get ⟨i, h⟩).path, (w.FindDiscords.get ⟨i, h⟩).isPatched,
          w.IsOpenAsar (w.FindDiscords.get ⟨i, h⟩)⟩) ∧
      (∀ e ∈ handleMessage unmarshal w msg, e.isMutating = false) ∧
      (∀ (msg2 : Msg) (p2 : Payload), unmarshal msg2 = some p2 → p2.Nonce = p.Nonce →
        p2.Op = p.Op → handleMessage unmarshal w msg2 = handleMessage unmarshal w msg) := by
  have hop1 : p.Op = OpListInstalls := hop
  have hh : handleMessage unmarshal w msg = dispatch w p := by
    simp [handleMessage, hdec, hnonce]
  refine ⟨w.FindDiscords.map fun d =>
    (⟨d.branch, d.path, d.isPatched, w.IsOpenAsar d⟩ : DiscordData), ?_, ?_, ?_, ?_, ?_⟩
  · rw [hh]
    simp [dispatch, hop1, reply, write, OpOk]
  · simp
  · intro i h
    simp [List.getElem?_map, List.getElem?_eq_getElem h]
  · rw [hh]
    exact dispatch_not_mutating w p
  · intro msg2 p2 hdec2 hn2 hop2
    have hn2ne : p2.Nonce ≠ "" := by rw [hn2]; exact hnonce
    have hop2l : p2.Op = OpListInstalls := by rw [hop2]; exact hop1
    rw [hh]
    have hh2 : handleMessage unmarshal w msg2 = dispatch w p2 := by
      simp [handleMessage, hdec2, hn2ne]
    rw [hh2]
    simp [dispatch, hop1, hop2l, hn2]

/-- C8 at the two sample installations, and at an empty discovery result. -/
theorem C8_list_installs_witness :
    (∃ recs : List DiscordData,
      handleMessage sampleUnmarshal sampleWorld
          (some ⟨"1", "LIST_INSTALLS", RawMessage.absent⟩)
        = Event.FindDiscords :: (sampleWorld.FindDiscords.map Event.IsOpenAsar
            ++ [Event.WriteMessage ⟨"1", "OK", ReplyData.installs recs, none⟩]) ∧
      recs.length = 2) ∧
    handleMessage sampleUnmarshal sampleWorld
        (some ⟨"1", "LIST_INSTALLS", RawMessage.number "5"⟩)
      = [Event.FindDiscords, Event.IsOpenAsar sampleInstall, Event.IsOpenAsar sampleCanary,
         Event.WriteMessage ⟨"1", "OK",
           ReplyData.installs [⟨"stable", "/opt/discord", false, false⟩,
             ⟨"canary", "/opt/discord-canary", true, true⟩], none⟩] ∧
    handleMessage sampleUnmarshal
        ⟨[], fun _ => false, fun _ => none, fun _ => none, fun _ => none, fun _ => none, none⟩
        (some ⟨"1", "LIST_INSTALLS", RawMessage.absent⟩)
      = [Event.FindDiscords, Event.WriteMessage ⟨"1", "OK", ReplyData.installs [], none⟩] := by
  refine ⟨?_, by decide, by decide⟩
  obtain ⟨recs, h1, h2, _⟩ := C8_list_installs sampleUnmarshal sampleWorld
    (some ⟨"1", "LIST_INSTALLS", RawMessage.absent⟩)
    ⟨"1", "LIST_INSTALLS", RawMessage.absent⟩ rfl (by decide) rfl
  exact ⟨recs, h1, h2⟩

/-- The loop goes through a run of successful reads and is then where it would be had
it started at the reads that follow. -/
theorem launch_append {Msg : Type} (unmarshal : Msg → Option Payload)
    (pre rest : List (ReadResult Msg × World)) (hpre : ∀ x ∈ pre, x.1.failed = false) :
    launch unmarshal (pre ++ rest)
      = ((launch unmarshal rest).1, (launch unmarshal pre).2 ++ (launch unmarshal rest).2) := by
  induction pre with
  | nil => simp [launch]
  | cons x pre ih =>
    obtain ⟨r, w⟩ := x
    have hx := hpre (r, w) (List.mem_cons_self _ _)
    have ih2 := ih (fun y hy => hpre y (List.mem_cons_of_mem _ hy))
    cases r with
    | error e => simp [ReadResult.failed] at hx
    | message m => simp [launch, loopBody, ih2]

/-- The session is closed after a run of reads exactly when one of them failed. -/
theorem launch_closed_iff {Msg : Type} (unmarshal : Msg → Option Payload)
    (inputs : List (ReadResult Msg × World)) :
    (launch unmarshal inputs).1 = SessionState.Closed ↔ ∃ x ∈ inputs, x.1.failed = true := by
  induction inputs with
  | nil => simp [launch]
  | cons x rest ih =>
    obtain ⟨r, w⟩ := x
    cases r with
    | error e => simp [launch, loopBody, ReadResult.failed]
    | message m => simp [launch, loopBody, ReadResult.failed, ih]

/-- C9: the session loop as a machine with the states Open and Closed.  A pass through
the loop body on a successfully read frame always ends with the loop going on to the
next read, whatever the frame decodes to and whatever the collaborators answer; a pass
on a failed read leaves the loop without writing anything.  So after any run of reads
the session is Closed exactly when one of the reads failed, a run of successful reads
leaves the machine where it started (Open, the later reads are processed as usual),
and the first failed read closes the connection and ends the run: no later read is
processed. -/
theorem C9_session_loop {Msg : Type} (unmarshal : Msg → Option Payload) :
    (∀ (w : World) (msg : Msg),
      (loopBody unmarshal w (ReadResult.message msg)).1 = Control.next) ∧
    (∀ (w : World) (err : String),
      loopBody unmarshal w (ReadResult.error err) = (Control.leave, [])) ∧
    (∀ inputs : List (ReadResult Msg × World),
      (launch unmarshal inputs).1 = SessionState.Closed
        ↔ ∃ x ∈ inputs, x.1.failed = true) ∧
    (∀ inputs : List (ReadResult Msg × World),
      (launch unmarshal inputs).1 = SessionState.Open
        ↔ ∀ x ∈ inputs, x.1.failed = false) ∧
    (∀ pre rest : List (ReadResult Msg × World), (∀ x ∈ pre, x.1.failed = false) →
      (launch unmarshal pre).1 = SessionState.Open ∧
      launch unmarshal (pre ++ rest)
        = ((launch unmarshal rest).1,
            (launch unmarshal pre).2 ++ (launch unmarshal rest).2)) ∧
    (∀ (err : String) (w : World) (rest : List (ReadResult Msg × World)),
      launch unmarshal ((ReadResult.error err, w) :: rest)
        = (SessionState.Closed, [Event.Close])) := by
  have hopen : ∀ inputs : List (ReadResult Msg × World),
      (launch unmarshal inputs).1 = SessionState.Open
        ↔ ∀ x ∈ inputs, x.1.failed = false := by
    intro inputs
    have h := launch_closed_iff unmarshal inputs
    constructor
    · intro ho x hx
      cases hf : x.1.failed with
      | false => rfl
      | true =>
        have hc := h.2 ⟨x, hx, hf⟩
        rw [ho] at hc
        exact absurd hc (by decide)
    · intro hall
      cases hs : (launch unmarshal inputs).1 with
      | Open => rfl
      | Closed =>
        obtain ⟨x, hx, hf⟩ := h.1 hs
        rw [hall x hx] at hf
        exact absurd hf (by decide)
  refine ⟨fun _ _ => rfl, fun _ _ => rfl, launch_closed_iff unmarshal, hopen, ?_, ?_⟩
  · intro pre rest hpre
    exact ⟨(hopen pre).2 hpre, launch_append unmarshal pre rest hpre⟩
  · intro err w rest
    simp [launch, loopBody]

/-- C9 on a session of eight reads: an undecodable frame, a frame without nonce, an
unknown op, a payload that is no string, an unknown path, a listing, then a failed read
and a frame after it.  Each of the first six gets its reply and the session stays
Open; the failed read closes it and the last frame is never handled. -/
theorem C9_session_loop_witness :
    launch sampleUnmarshal
      [(ReadResult.message none, sampleWorld),
       (ReadResult.message (some ⟨"", "PATCH", RawMessage.absent⟩), sampleWorld),
       (ReadResult.message (some ⟨"a", "FOO", RawMessage.absent⟩), sampleWorld),
       (ReadResult.message (some ⟨"b", "PATCH", RawMessage.number "1"⟩), sampleWorld),
       (ReadResult.message (some ⟨"c", "UNPATCH", RawMessage.string "/x"⟩), failingWorld),
       (ReadResult.message (some ⟨"d", "LIST_INSTALLS", RawMessage.absent⟩), sampleWorld)]
      = (SessionState.Open,
        [Event.WriteMessage ⟨"", "ERROR", ReplyData.null, some "Invalid data"⟩,
         Event.WriteMessage ⟨"", "ERROR", ReplyData.null, some "Missing Nonce"⟩,
         Event.WriteMessage ⟨"a", "ERROR", ReplyData.null, some "Unknown OP 'FOO'"⟩,
         Event.WriteMessage ⟨"b", "ERROR", ReplyData.null, some "Expected data to be string"⟩,
         Event.FindDiscords,
         Event.WriteMessage ⟨"c", "ERROR", ReplyData.null, some "No such Discord install: /x"⟩,
         Event.FindDiscords, Event.IsOpenAsar sampleInstall, Event.IsOpenAsar sampleCanary,
         Event.WriteMessage ⟨"d", "OK",
           ReplyData.installs [⟨"stable", "/opt/discord", false, false⟩,
             ⟨"canary", "/opt/discord-canary", true, true⟩], none⟩]) ∧
    (launch sampleUnmarshal
      [(ReadResult.message (some ⟨"a", "FOO", RawMessage.absent⟩), sampleWorld),
       (ReadResult.error "EOF", sampleWorld),
       (ReadResult.message (some ⟨"e", "LIST_INSTALLS", RawMessage.absent⟩), sampleWorld)]).1
      = SessionState.Closed ∧
    launch sampleUnmarshal
      [(ReadResult.message (some ⟨"a", "FOO", RawMessage.absent⟩), sampleWorld),
       (ReadResult.error "EOF", sampleWorld),
       (ReadResult.message (some ⟨"e", "LIST_INSTALLS", RawMessage.absent⟩), sampleWorld)]
      = (SessionState.Closed,
        [Event.WriteMessage ⟨"a", "ERROR", ReplyData.null, some "Unknown OP 'FOO'"⟩,
         Event.Close]) :=
  ⟨by decide,
   ((C9_session_loop sampleUnmarshal).2.2.1 _).2
     ⟨(ReadResult.error "EOF", sampleWorld), by simp, rfl⟩,
   by decide⟩

/-- C10: the handle declared on line 133 is still nil when the resolution loop is left,
whatever discovery returned.  So for every path-addressed request with a non-empty
nonce `n` and a string payload `path`, also when a discovered handle has exactly that
path, the handler runs discovery and writes the single envelope op ERROR, nonce `n`,
message "No such Discord install: " followed by `path`; and no request at all, on any
frame and in any world, makes the handler call `patch`, `unpatch`,
`InstallLatestBuilds`, `InstallOpenAsar` or `UninstallOpenAsar`. -/
theorem C10_shadowed_handle {Msg : Type} (unmarshal : Msg → Option Payload)
    (w : World) (msg : Msg) (p : Payload) (path : String)
    (hdec : unmarshal msg = some p) (hnonce : p.Nonce ≠ "") (hop : isPathOp p.Op)
    (hdata : p.Data = RawMessage.string path) :
    resolveLoop path none w.FindDiscords = none ∧
    handleMessage unmarshal w msg
      = [Event.FindDiscords,
         Event.WriteMessage ⟨p.Nonce, "ERROR", ReplyData.null,
           some ("No such Discord install: " ++ path)⟩] ∧
    (∀ (w2 : World) (msg2 : Msg), ∀ e ∈ handleMessage unmarshal w2 msg2,
      e.isMutating = false) ∧
    (∀ inputs : List (ReadResult Msg × World), ∀ e ∈ (launch unmarshal inputs).2,
      e.isMutating = false) := by
  have hu : unmarshalString p.Data = some path := by rw [hdata]; rfl
  have hh : handleMessage unmarshal w msg = dispatch w p := by
    simp [handleMessage, hdec, hnonce]
  have hall : ∀ (w2 : World) (msg2 : Msg), ∀ e ∈ handleMessage unmarshal w2 msg2,
      e.isMutating = false := by
    intro w2 msg2 e he
    unfold handleMessage at he
    cases hd : unmarshal msg2 with
    | none =>
      rw [hd] at he
      simp only [replyError, write, List.mem_singleton] at he
      subst he; rfl
    | some p2 =>
      rw [hd] at he
      by_cases hn : p2.Nonce = ""
      · simp only [hn, if_true, replyError, write, List.mem_singleton] at he
        subst he; rfl
      · simp only [hn, if_false] at he
        exact dispatch_not_mutating w2 p2 e he
  refine ⟨resolveLoop_eq _ _ _, ?_, hall, ?_⟩
  · rw [hh]
    exact dispatch_pathOp w p path hop hu
  · intro inputs
    induction inputs with
    | nil => intro e he; simp [launch] at he
    | cons x rest ih =>
      obtain ⟨r, w3⟩ := x
      cases r with
      | error err =>
        intro e he
        simp only [launch, loopBody, List.nil_append, List.mem_singleton] at he
        subst he; rfl
      | message m =>
        intro e he
        simp only [launch, loopBody, List.mem_append] at he
        rcases he with he | he
        · exact hall w3 m e he
        · exact ih e he

/-- C10 at each of the five path-addressed ops, the payload being the path of a
discovered handle. -/
theorem C10_shadowed_handle_witness :
    sampleInstall ∈ sampleWorld.FindDiscords ∧
    handleMessage sampleUnmarshal failingWorld
        (some ⟨"9", "PATCH", RawMessage.string sampleCanary.path⟩)
      = [Event.FindDiscords,
         Event.WriteMessage ⟨"9", "ERROR", ReplyData.null,
           some "No such Discord install: /opt/discord-canary"⟩] ∧
    handleMessage sampleUnmarshal sampleWorld
        (some ⟨"9", "REPAIR", RawMessage.string sampleCanary.path⟩)
      = [Event.FindDiscords,
         Event.WriteMessage ⟨"9", "ERROR", ReplyData.null,
           some "No such Discord install: /opt/discord-canary"⟩] ∧
    handleMessage sampleUnmarshal sampleWorld
        (some ⟨"9", "UNPATCH", RawMessage.string sampleInstall.path⟩)
      = [Event.FindDiscords,
         Event.WriteMessage ⟨"9", "ERROR", ReplyData.null,
           some "No such Discord install: /opt/discord"⟩] ∧
    handleMessage sampleUnmarshal sampleWorld
        (some ⟨"9", "INSTALL_OPENASAR", RawMessage.string sampleInstall.path⟩)
      = [Event.FindDiscords,
         Event.WriteMessage ⟨"9", "ERROR", ReplyData.null,
           some "No such Discord install: /opt/discord"⟩] ∧
    handleMessage sampleUnmarshal sampleWorld
        (some ⟨"9", "UNINSTALL_OPENASAR", RawMessage.string sampleInstall.path⟩)
      = [Event.FindDiscords,
         Event.WriteMessage ⟨"9", "ERROR", ReplyData.null,
           some "No such Discord install: /opt/discord"⟩] :=
  ⟨by decide,
   (C10_shadowed_handle sampleUnmarshal failingWorld _
      ⟨"9", "PATCH", RawMessage.string sampleCanary.path⟩ sampleCanary.path
      rfl (by decide) (by decide) rfl).2.1.trans (by decide),
   (C10_shadowed_handle sampleUnmarshal sampleWorld _
      ⟨"9", "REPAIR", RawMessage.string sampleCanary.path⟩ sampleCanary.path
      rfl (by decide) (by decide) rfl).2.1.trans (by decide),
   (C10_shadowed_handle sampleUnmarshal sampleWorld _
      ⟨"9", "UNPATCH", RawMessage.string sampleInstall.path⟩ sampleInstall.path
      rfl (by decide) (by decide) rfl).2.1.trans (by decide),
   (C10_shadowed_handle sampleUnmarshal sampleWorld _
      ⟨"9", "INSTALL_OPENASAR", RawMessage.string sampleInstall.path⟩ sampleInstall.path
      rfl (by decide) (by decide) rfl).2.1.trans (by decide),
   (C10_shadowed_handle sampleUnmarshal sampleWorld _
      ⟨"9", "UNINSTALL_OPENASAR", RawMessage.string sampleInstall.path⟩ sampleInstall.path
      rfl (by decide) (by decide) rfl).2.1.trans (by decide)⟩

end Equilotl
